import Mathlib

/-!
Verification development for the blood-report analyser repository
(`blood_report_analyser.py`, `app.py`, `pdf_generator.py`).

The Python code is shallowly embedded:
* JSON values are the inductive `JVal`; Python dicts are association lists
  (`Dict`) with Python assignment semantics (`dictSet` overwrites in place,
  otherwise appends).
* `json.loads` is an external library call; it is passed in as an abstract
  parameter `loads : String → Option Dict`.  `json.dumps` round-trips with
  `loads` on the records this program builds, so records are passed around
  structurally; the compact serialization `jdump` models the one place the
  raw dump string is user-visible (the display fallback in `app.py`).
* `datetime.now().isoformat()` and the PDF "Generated on" time are
  nondeterministic inputs, passed in as the strings `now` / `rnow`.
* Raising code is modelled with `Except String`; the message for a Python
  `KeyError('parameter')` is `str(e) = 'parameter'` (with quotes), other
  exception classes appear via stand-in messages ("TypeError",
  "AttributeError") whose exact text the claims never rely on.
* The FPDF document is modelled as the list of content cells the code
  emits, each with the text colour in force when it is drawn.
-/

/-- JSON values (`json.loads` results). Python floats never appear in the
claims, so numbers are integers. -/
inductive JVal where
  | null
  | bool (b : Bool)
  | num (n : Int)
  | str (s : String)
  | arr (elems : List JVal)
  | obj (fields : List (String × JVal))

/-- A Python dict with string keys, as an association list in insertion
order (the order `json.loads` and dict assignment preserve). -/
abbrev Dict := List (String × JVal)

/-- `d[k]` lookup returning `none` when absent (first matching key). -/
def dictGet : Dict → String → Option JVal
  | [], _ => none
  | (k', v) :: rest, k => if k' = k then some v else dictGet rest k

/-- Python `k in d`. -/
def dictHas (d : Dict) (k : String) : Bool :=
  (dictGet d k).isSome

/-- Python `d[k] = v`: overwrite in place when the key exists, else append
at the end (dicts preserve insertion order). -/
def dictSet : Dict → String → JVal → Dict
  | [], k, v => [(k, v)]
  | (k', w) :: rest, k, v =>
    if k' = k then (k, v) :: rest else (k', w) :: dictSet rest k v

/-- Python `s.find(c)`: index of the first occurrence, `-1` when absent. -/
def pyFind (s : List Char) (c : Char) : Int :=
  match s.findIdx? (fun x => x = c) with
  | some i => (i : Int)
  | none => -1

/-- Python `s.rfind(c)`: index of the last occurrence, `-1` when absent. -/
def pyRfind (s : List Char) (c : Char) : Int :=
  match s.reverse.findIdx? (fun x => x = c) with
  | some i => ((s.length - 1 - i : Nat) : Int)
  | none => -1

/-- Python `s[:n]` (by code points, like Python). -/
def strTake (s : String) (n : Nat) : String :=
  ⟨s.data.take n⟩

/-- Python `s[a:b]` for nonnegative bounds. -/
def strSlice (s : String) (a b : Nat) : String :=
  ⟨(s.data.drop a).take (b - a)⟩

/-- Python `len(s)` (code points). -/
def strLen (s : String) : Nat :=
  s.data.length

/-- Python `s.lower()` (ASCII-faithful). -/
def pyLower (s : String) : String :=
  ⟨s.data.map Char.toLower⟩

/-- Python `s.endswith(suffix)`. -/
def pyEndsWith (s suffix : String) : Bool :=
  List.isSuffixOf suffix.data s.data

/-- Python `s.startswith(pre)`. -/
def pyStartsWith (s pre : String) : Bool :=
  List.isPrefixOf pre.data s.data

/-- The fixed six-item disclaimer boilerplate inserted by
`analyze_blood_report` when the parsed reply has no `disclaimer` key
(blood_report_analyser.py lines 105-112). -/
def defaultDisclaimer : List String :=
  ["This analysis is for informational purposes only and does not constitute medical advice.",
   "Please consult with a healthcare professional for proper medical diagnosis and treatment.",
   "Results may vary and this tool cannot substitute for laboratory testing.",
   "This report was generated using AI analysis of an uploaded image.",
   "Some values may not be accurately extracted if the image quality is poor.",
   "Always verify results with your original laboratory report."]

/-- Outcome of reading the image and calling the Gemini model
(blood_report_analyser.py lines 80-81): either the reply text, or any
exception raised while reading the file or making the network call
(with its `str(e)` message). -/
inductive ModelReply where
  | text (s : String)
  | exn (msg : String)

/-- One part of the outbound multimodal payload (`image_format`). The
image bytes are opaque input. -/
structure ImagePart where
  mime_type : String
  data : List Nat

/-- `image_format` (blood_report_analyser.py lines 22-28): tags the image
`image/jpeg` when the lowercased path ends in `.jpg`/`.jpeg`, else
`image/png`. -/
def image_format (image_path : String) (bytes : List Nat) : List ImagePart :=
  [{ mime_type :=
       if pyEndsWith (pyLower image_path) ".jpg" || pyEndsWith (pyLower image_path) ".jpeg"
       then "image/jpeg" else "image/png",
     data := bytes }]

/-- The slice `response.text[json_start_idx:json_end_idx]` of
blood_report_analyser.py line 96, with `json_start_idx = text.find('{')`
and `json_end_idx = text.rfind('}') + 1`. -/
def braceSlice (text : String) : String :=
  strSlice text (pyFind text.data '{').toNat ((pyRfind text.data '}') + 1).toNat

/-- `analyze_blood_report` (blood_report_analyser.py lines 30-125),
returning the record that the function `json.dumps`-serialises.
`loads` stands for `json.loads`; `now` for `datetime.now().isoformat()`.
The `.exn` case is the outer `except Exception` (lines 121-125); note it
returns a record with only `error` and `timestamp`, no `raw_response`. -/
def analyze_blood_report (loads : String → Option Dict) (now : String)
    (reply : ModelReply) : Dict :=
  match reply with
  | .exn e => [("error", JVal.str e), ("timestamp", JVal.str now)]
  | .text text =>
    let json_start_idx : Int := pyFind text.data '{'
    let json_end_idx : Int := pyRfind text.data '}' + 1
    if json_start_idx = -1 ∨ json_end_idx = 0 then
      [("error", JVal.str "Could not parse the blood report"),
       ("raw_response", JVal.str (strTake text 500)),
       ("timestamp", JVal.str now)]
    else
      match loads (braceSlice text) with
      | some result =>
        let result := dictSet result "analysis_timestamp" (JVal.str now)
        if dictHas result "disclaimer" then result
        else dictSet result "disclaimer" (JVal.arr (defaultDisclaimer.map JVal.str))
      | none =>
        [("error", JVal.str "Could not parse JSON response"),
         ("raw_response", JVal.str (strTake (braceSlice text) 500)),
         ("timestamp", JVal.str now)]

/-- Python truthiness of a JSON value (`if x:`). -/
def pyTruthy : JVal → Bool
  | .null => false
  | .bool b => b
  | .num n => n != 0
  | .str s => !s.data.isEmpty
  | .arr l => !l.isEmpty
  | .obj d => !d.isEmpty

/-- Truthiness of `d.get(k)` (missing key gives `None`, which is falsy). -/
def pyTruthyOpt : Option JVal → Bool
  | some v => pyTruthy v
  | none => false

mutual
/-- Python `str(v)` / f-string interpolation of a JSON value. -/
def pyStr : JVal → String
  | .null => "None"
  | .bool b => if b then "True" else "False"
  | .num n => toString n
  | .str s => s
  | .arr l => "[" ++ String.intercalate ", " (pyReprList l) ++ "]"
  | .obj d => "\x7b" ++ String.intercalate ", " (pyReprPairs d) ++ "\x7d"
/-- Python `repr(v)`, used for elements of containers inside `str`. -/
def pyRepr : JVal → String
  | .null => "None"
  | .bool b => if b then "True" else "False"
  | .num n => toString n
  | .str s => "\x27" ++ s ++ "\x27"
  | .arr l => "[" ++ String.intercalate ", " (pyReprList l) ++ "]"
  | .obj d => "\x7b" ++ String.intercalate ", " (pyReprPairs d) ++ "\x7d"
def pyReprList : List JVal → List String
  | [] => []
  | v :: vs => pyRepr v :: pyReprList vs
def pyReprPairs : List (String × JVal) → List String
  | [] => []
  | (k, v) :: ps => ("\x27" ++ k ++ "\x27: " ++ pyRepr v) :: pyReprPairs ps
end

/-- JSON string escaping for `jdump` (quotes and backslashes). -/
def jescapeStr (s : String) : String :=
  ⟨s.data.foldr (fun c acc =>
     (if c = '"' then ['\\', '"'] else if c = '\\' then ['\\', '\\'] else [c]) ++ acc) []⟩

mutual
/-- `json.dumps` (whitespace/indent elided; only reachable in the display
fallback branch of `process_image`, which no normal record hits). -/
def jdump : JVal → String
  | .null => "null"
  | .bool b => if b then "true" else "false"
  | .num n => toString n
  | .str s => "\"" ++ jescapeStr s ++ "\""
  | .arr l => "[" ++ String.intercalate ", " (jdumpList l) ++ "]"
  | .obj d => "\x7b" ++ String.intercalate ", " (jdumpPairs d) ++ "\x7d"
def jdumpList : List JVal → List String
  | [] => []
  | v :: vs => jdump v :: jdumpList vs
def jdumpPairs : List (String × JVal) → List String
  | [] => []
  | (k, v) :: ps => ("\"" ++ jescapeStr k ++ "\": " ++ jdump v) :: jdumpPairs ps
end

/-- One content item of the rendered PDF: either a section title band
(`chapter_title`) or a text cell drawn with the text colour in force.
Geometry (widths, borders, page breaks) is the PDF library's concern and
is not observed by any claim. -/
inductive PdfOp where
  | title (t : String)
  | cell (txt : String) (color : Nat × Nat × Nat)

/-- Default FPDF text colour. -/
def black : Nat × Nat × Nat := (0, 0, 0)

/-- `set_text_color(255, 0, 0)` used for ABNORMAL status cells. -/
def red : Nat × Nat × Nat := (255, 0, 0)

/-- `set_text_color(0, 128, 0)` used for NORMAL status cells. -/
def green : Nat × Nat × Nat := (0, 128, 0)

/-- `set_text_color(128, 128, 128)` used for the disclaimer block. -/
def gray : Nat × Nat × Nat := (128, 128, 128)

/-- Passing a value straight to `FPDF.cell` as its text: fine for a str,
raises for other types. -/
def cellText : JVal → Except String String
  | .str s => .ok s
  | _ => .error "TypeError"

/-- `d.get(k, 'N/A')` interpolated into an f-string (never raises). -/
def pyGetStr (d : Dict) (k : String) : String :=
  match dictGet d k with
  | none => "N/A"
  | some v => pyStr v

/-- `add_patient_details` (pdf_generator.py lines 43-65). A non-dict
argument raises at the first `.get` (AttributeError). -/
def add_patient_details (v : JVal) : Except String (List PdfOp) :=
  match v with
  | .obj pd =>
    ((match dictGet pd "name" with
     | some nv =>
       if pyTruthy nv then
         match cellText nv with
         | .ok t => .ok [PdfOp.cell "Name:" black, PdfOp.cell t black]
         | .error e => .error e
       else .ok []
     | none => .ok []) : Except String (List PdfOp)).bind fun nameOps =>
    (if pyTruthyOpt (dictGet pd "age") || pyTruthyOpt (dictGet pd "gender") then
       .ok [PdfOp.cell "Age/Gender:" black,
            PdfOp.cell (pyGetStr pd "age" ++ " / " ++ pyGetStr pd "gender") black]
     else (.ok [] : Except String (List PdfOp))).bind fun ageOps =>
    ((match dictGet pd "id" with
     | some iv =>
       if pyTruthy iv then
         match cellText iv with
         | .ok t => .ok [PdfOp.cell "Patient ID:" black, PdfOp.cell t black]
         | .error e => .error e
       else .ok []
     | none => .ok []) : Except String (List PdfOp)).bind fun idOps =>
    .ok (PdfOp.title "Patient Details" :: (nameOps ++ ageOps ++ idOps))
  | _ => .error "AttributeError"

/-- `add_test_date` (pdf_generator.py lines 67-73): renders nothing for a
falsy date. -/
def add_test_date (v : JVal) : Except String (List PdfOp) :=
  if pyTruthy v then
    match cellText v with
    | .ok t => .ok [PdfOp.cell "Test Date:" black, PdfOp.cell t black]
    | .error e => .error e
  else .ok []

/-- `param["parameter"]` plus the 30-character truncation of
pdf_generator.py lines 89-92.  A missing key is a `KeyError` whose
`str` is `'parameter'`. -/
def paramName (d : Dict) : Except String String :=
  match dictGet d "parameter" with
  | none => .error "\x27parameter\x27"
  | some (.str s) => .ok (if s.data.length > 30 then strTake s 30 ++ "..." else s)
  | some _ => .error "TypeError"

/-- `param.get("value", "N/A")` passed to `cell` (line 94). -/
def paramValue (d : Dict) : Except String String :=
  match dictGet d "value" with
  | none => .ok "N/A"
  | some (.str s) => .ok s
  | some _ => .error "TypeError"

/-- `param.get("reference_range", "N/A")` passed to `cell` (line 95). -/
def paramRange (d : Dict) : Except String String :=
  match dictGet d "reference_range" with
  | none => .ok "N/A"
  | some (.str s) => .ok s
  | some _ => .error "TypeError"

/-- `param.get("status", "").lower()` (line 98): `.lower()` raises on a
non-str value. -/
def paramStatus (d : Dict) : Except String String :=
  match dictGet d "status" with
  | none => .ok ""
  | some (.str s) => .ok (pyLower s)
  | some _ => .error "AttributeError"

/-- One iteration of the table loop (pdf_generator.py lines 87-106), in
the source's evaluation order: parameter cell, value cell, reference
range cell, then the colour-coded status cell. -/
def renderRow (param : JVal) : Except String (List PdfOp) :=
  match param with
  | .obj d =>
    match paramName d with
    | .error e => .error e
    | .ok pname =>
      match paramValue d with
      | .error e => .error e
      | .ok value =>
        match paramRange d with
        | .error e => .error e
        | .ok range =>
          match paramStatus d with
          | .error e => .error e
          | .ok status =>
            .ok ([PdfOp.cell pname black, PdfOp.cell value black,
                  PdfOp.cell range black] ++
              (if status = "abnormal" then [PdfOp.cell "ABNORMAL" red]
               else [PdfOp.cell "NORMAL" green]))
  | _ => .error "TypeError"

/-- The whole table loop, stopping at the first raising row. -/
def renderRows : List JVal → Except String (List PdfOp)
  | [] => .ok []
  | p :: ps =>
    match renderRow p with
    | .error e => .error e
    | .ok r =>
      match renderRows ps with
      | .error e => .error e
      | .ok rest => .ok (r ++ rest)

/-- The fixed table header cells of pdf_generator.py lines 79-83. -/
def bloodTableHeader : List PdfOp :=
  [PdfOp.title "Blood Parameters", PdfOp.cell "Parameter" black,
   PdfOp.cell "Value" black, PdfOp.cell "Reference Range" black,
   PdfOp.cell "Status" black]

/-- `add_blood_parameters` (pdf_generator.py lines 75-108).  Iterating a
non-list mirrors Python: an empty str/dict yields no rows, a non-empty
one raises on the first element, non-iterables raise at `for`. -/
def add_blood_parameters (v : JVal) : Except String (List PdfOp) :=
  match v with
  | .arr params =>
    (match renderRows params with
     | .error e => .error e
     | .ok rows => .ok (bloodTableHeader ++ rows))
  | .str s => if s.data.isEmpty then .ok bloodTableHeader else .error "TypeError"
  | .obj d => if d.isEmpty then .ok bloodTableHeader else .error "TypeError"
  | _ => .error "TypeError"

/-- `add_summary` (pdf_generator.py lines 110-118): numbered items via
f-strings, which stringify any value. Iterating a str enumerates its
characters, a dict its keys; other scalars raise at `for`. -/
def add_summary (v : JVal) : Except String (List PdfOp) :=
  match v with
  | .arr items =>
    .ok (PdfOp.title "Summary" ::
      items.enum.map (fun p => PdfOp.cell (toString (p.1 + 1) ++ ". " ++ pyStr p.2) black))
  | .str s =>
    .ok (PdfOp.title "Summary" ::
      s.data.enum.map (fun p => PdfOp.cell (toString (p.1 + 1) ++ ". " ++ String.singleton p.2) black))
  | .obj d =>
    .ok (PdfOp.title "Summary" ::
      d.enum.map (fun p => PdfOp.cell (toString (p.1 + 1) ++ ". " ++ p.2.1) black))
  | _ => .error "TypeError"

/-- `add_disclaimer` (pdf_generator.py lines 120-130): like the summary
but drawn in gray. -/
def add_disclaimer (v : JVal) : Except String (List PdfOp) :=
  match v with
  | .arr items =>
    .ok (PdfOp.title "Disclaimer" ::
      items.enum.map (fun p => PdfOp.cell (toString (p.1 + 1) ++ ". " ++ pyStr p.2) gray))
  | .str s =>
    .ok (PdfOp.title "Disclaimer" ::
      s.data.enum.map (fun p => PdfOp.cell (toString (p.1 + 1) ++ ". " ++ String.singleton p.2) gray))
  | .obj d =>
    .ok (PdfOp.title "Disclaimer" ::
      d.enum.map (fun p => PdfOp.cell (toString (p.1 + 1) ++ ". " ++ p.2.1) gray))
  | _ => .error "TypeError"

/-- One `if key in data: pdf.add_<section>(data[key])` step of
`generate_pdf`. -/
def sectionOps (data : Dict) (key : String)
    (f : JVal → Except String (List PdfOp)) : Except String (List PdfOp) :=
  match dictGet data key with
  | some v => f v
  | none => .ok []

/-- `generate_pdf` (pdf_generator.py lines 132-180) on an already-parsed
record: the "Generated on" line (with render time `rnow`), then each
section in fixed order when its key is present.  An exception anywhere
propagates (to `process_image`'s except). -/
def generate_pdf (data : Dict) (rnow : String) : Except String (List PdfOp) :=
  (sectionOps data "patient_details" add_patient_details).bind fun pOps =>
  (sectionOps data "test_date" add_test_date).bind fun tOps =>
  (sectionOps data "blood_parameters" add_blood_parameters).bind fun bOps =>
  (sectionOps data "summary" add_summary).bind fun sOps =>
  (sectionOps data "disclaimer" add_disclaimer).bind fun dOps =>
  .ok (PdfOp.cell ("Generated on: " ++ rnow) black :: (pOps ++ tOps ++ bOps ++ sOps ++ dOps))

/-- `pd[k]` interpolated into an f-string, in positions where the guard
already established the key is present. -/
def pyItem (d : Dict) (k : String) : String :=
  pyStr ((dictGet d k).getD JVal.null)

/-- The patient-details block of `format_json_for_display` (app.py lines
52-59): one markdown line per truthy field. -/
def fmtPatient (v : JVal) : Except String (List String) :=
  match v with
  | .obj pd =>
    .ok (["## Patient Details"] ++
      (if pyTruthyOpt (dictGet pd "name") then ["**Name:** " ++ pyItem pd "name"] else []) ++
      (if pyTruthyOpt (dictGet pd "age") then ["**Age:** " ++ pyItem pd "age"] else []) ++
      (if pyTruthyOpt (dictGet pd "gender") then ["**Gender:** " ++ pyItem pd "gender"] else []) ++
      (if pyTruthyOpt (dictGet pd "id") then ["**ID:** " ++ pyItem pd "id"] else []) ++
      [""])
  | _ => .error "AttributeError"

/-- The parameter loop of `format_json_for_display` (app.py lines 69-72),
in source order: the status indicator is computed before `param
["parameter"]` is read. -/
def fmtParams : List JVal → Except String (List String)
  | [] => .ok []
  | .obj d :: ps =>
    (match paramStatus d with
     | .error e => .error e
     | .ok status =>
       match dictGet d "parameter" with
       | none => .error "\x27parameter\x27"
       | some pv =>
         match fmtParams ps with
         | .error e => .error e
         | .ok rest =>
           .ok (("**" ++ pyStr pv ++ ":** " ++ pyGetStr d "value" ++
                 " (Reference: " ++ pyGetStr d "reference_range" ++ ") " ++
                 (if status = "abnormal" then "[ABNORMAL]" else "[NORMAL]")) :: rest))
  | _ :: _ => .error "AttributeError"

/-- `format_json_for_display` (app.py lines 47-88): the markdown lines,
joined with newlines.  Any exception propagates to the inner
`try`/`except` of `process_image`. -/
def format_json_for_display (data : Dict) : Except String String :=
  ((match dictGet data "patient_details" with
    | some v => fmtPatient v
    | none => .ok []) : Except String (List String)).bind fun pLines =>
  ((match dictGet data "blood_parameters" with
    | some (.arr params) =>
      (fmtParams params).bind fun ls => .ok (["## Blood Parameters"] ++ ls ++ [""])
    | some (.str s) =>
      if s.data.isEmpty then .ok ["## Blood Parameters", ""] else .error "AttributeError"
    | some (.obj d) =>
      if d.isEmpty then .ok ["## Blood Parameters", ""] else .error "AttributeError"
    | some _ => .error "TypeError"
    | none => .ok []) : Except String (List String)).bind fun bLines =>
  ((match dictGet data "summary" with
    | some (.arr items) =>
      .ok (["## Summary"] ++
        items.enum.map (fun p => toString (p.1 + 1) ++ ". " ++ pyStr p.2) ++ [""])
    | some (.str s) =>
      .ok (["## Summary"] ++
        s.data.enum.map (fun p => toString (p.1 + 1) ++ ". " ++ String.singleton p.2) ++ [""])
    | some (.obj d) =>
      .ok (["## Summary"] ++
        d.enum.map (fun p => toString (p.1 + 1) ++ ". " ++ p.2.1) ++ [""])
    | some _ => .error "TypeError"
    | none => .ok []) : Except String (List String)).bind fun sLines =>
  ((match dictGet data "disclaimer" with
    | some (.arr items) =>
      .ok ("## Disclaimer" ::
        items.enum.map (fun p => toString (p.1 + 1) ++ ". " ++ pyStr p.2))
    | some (.str s) =>
      .ok ("## Disclaimer" ::
        s.data.enum.map (fun p => toString (p.1 + 1) ++ ". " ++ String.singleton p.2))
    | some (.obj d) =>
      .ok ("## Disclaimer" ::
        d.enum.map (fun p => toString (p.1 + 1) ++ ". " ++ p.2.1))
    | some _ => .error "TypeError"
    | none => .ok []) : Except String (List String)).bind fun dLines =>
  .ok (String.intercalate "\n"
    (pLines ++
     (match dictGet data "test_date" with
      | some v => ["**Test Date:** " ++ pyStr v, ""]
      | none => []) ++
     bLines ++ sLines ++ dLines))

/-- The value the Gradio upload handler receives: nothing, an image whose
save to the temp directory raises, or an image whose analysis produces
the given model reply. -/
inductive UploadImage where
  | nothing
  | saveFail (msg : String)
  | upload (reply : ModelReply)

/-- The triple `process_image` returns: display string, raw record,
downloadable document. -/
structure UploadResult where
  display : String
  record : Option Dict
  document : Option (List PdfOp)

/-- `process_image` (app.py lines 11-45).  `analyze_blood_report` never
raises, so the outer `except` only fires for the image save or
`generate_pdf`; the inner `try` around the display formatting falls back
to the raw JSON dump. -/
def process_image (loads : String → Option Dict) (now rnow : String)
    (img : UploadImage) : UploadResult :=
  match img with
  | .nothing => ⟨"Please upload a blood test report image.", none, none⟩
  | .saveFail e => ⟨"Error: " ++ e, none, none⟩
  | .upload reply =>
    let json_data := analyze_blood_report loads now reply
    match generate_pdf json_data rnow with
    | .error e => ⟨"Error: " ++ e, none, none⟩
    | .ok doc =>
      ⟨(match format_json_for_display json_data with
        | .ok s => s
        | .error _ => jdump (.obj json_data)),
       some json_data, some doc⟩

/-- A concrete stand-in for `json.loads` used to instantiate witnesses and
counterexamples: it parses exactly two fixed texts and rejects everything
else (in particular the empty string, which no JSON parser accepts). -/
def loadsFix : String → Option Dict := fun s =>
  if s = "\x7b\"a\": 1\x7d" then some [("a", JVal.num 1)]
  else if s = "\x7b\"disclaimer\": []\x7d" then some [("disclaimer", JVal.arr [])]
  else none

/-- The lowered status string of a table entry as the code compares it:
`param.get("status", "").lower()`, with `""` when the key is absent (a
non-str value makes the row raise instead and never reaches the
comparison). -/
def statusLower (d : Dict) : String :=
  match dictGet d "status" with
  | some (.str s) => pyLower s
  | _ => ""

/-- Whether a JSON value is a string. -/
def strValued : JVal → Bool
  | .str _ => true
  | _ => false

/-- A table entry all of whose present values are strings (the shape the
model is instructed to produce). -/
def StrDict (d : Dict) : Prop :=
  ∀ p ∈ d, strValued p.2 = true

theorem dictGet_dictSet_self (d : Dict) (k : String) (v : JVal) :
    dictGet (dictSet d k v) k = some v := by
  induction d with
  | nil => simp [dictSet, dictGet]
  | cons p t ih =>
    obtain ⟨a, b⟩ := p
    by_cases hak : a = k
    · subst hak
      simp [dictSet, dictGet]
    · simp [dictSet, dictGet, hak, ih]

theorem dictGet_dictSet_ne (d : Dict) (k : String) (v : JVal) (k' : String)
    (h : k' ≠ k) :
    dictGet (dictSet d k v) k' = dictGet d k' := by
  induction d with
  | nil => simp [dictSet, dictGet, Ne.symm h]
  | cons p t ih =>
    obtain ⟨a, b⟩ := p
    by_cases hak : a = k
    · subst hak
      simp [dictSet, dictGet, Ne.symm h]
    · by_cases ha' : a = k' <;> simp [dictSet, dictGet, hak, ha', h, ih]

theorem dictHas_dictSet_self (d : Dict) (k : String) (v : JVal) :
    dictHas (dictSet d k v) k = true := by
  simp [dictHas, dictGet_dictSet_self]

theorem dictHas_dictSet_ne (d : Dict) (k : String) (v : JVal) (k' : String)
    (h : k' ≠ k) :
    dictHas (dictSet d k v) k' = dictHas d k' := by
  simp [dictHas, dictGet_dictSet_ne d k v k' h]

theorem pyFind_cases (s : List Char) (c : Char) :
    pyFind s c = -1 ∨ ∃ n : Nat, pyFind s c = (n : Int) := by
  unfold pyFind
  cases s.findIdx? (fun x => x = c) with
  | none => exact Or.inl rfl
  | some i => exact Or.inr ⟨i, rfl⟩

theorem pyRfind_cases (s : List Char) (c : Char) :
    pyRfind s c = -1 ∨ ∃ n : Nat, pyRfind s c = (n : Int) := by
  unfold pyRfind
  cases s.reverse.findIdx? (fun x => x = c) with
  | none => exact Or.inl rfl
  | some i => exact Or.inr ⟨s.length - 1 - i, rfl⟩

theorem strSlice_of_le (s : String) (a b : Nat) (h : b ≤ a) :
    strSlice s a b = "" := by
  unfold strSlice
  rw [Nat.sub_eq_zero_of_le h]
  rfl

theorem analyze_text_branch1 (loads : String → Option Dict) (now text : String)
    (h : pyFind text.data '{' = -1 ∨ pyRfind text.data '}' = -1) :
    analyze_blood_report loads now (.text text) =
      [("error", JVal.str "Could not parse the blood report"),
       ("raw_response", JVal.str (strTake text 500)),
       ("timestamp", JVal.str now)] := by
  have hcond : pyFind text.data '{' = -1 ∨ pyRfind text.data '}' + 1 = 0 := by
    rcases h with h | h
    · exact Or.inl h
    · exact Or.inr (by rw [h]; rfl)
  simp only [analyze_blood_report]
  rw [if_pos hcond]

theorem analyze_text_rest (loads : String → Option Dict) (now text : String)
    (hjs : pyFind text.data '{' ≠ -1) (hje : pyRfind text.data '}' ≠ -1) :
    analyze_blood_report loads now (.text text) =
      (match loads (braceSlice text) with
       | some result =>
         (if dictHas (dictSet result "analysis_timestamp" (JVal.str now)) "disclaimer" then
            dictSet result "analysis_timestamp" (JVal.str now)
          else
            dictSet (dictSet result "analysis_timestamp" (JVal.str now)) "disclaimer"
              (JVal.arr (defaultDisclaimer.map JVal.str)))
       | none =>
         [("error", JVal.str "Could not parse JSON response"),
          ("raw_response", JVal.str (strTake (braceSlice text) 500)),
          ("timestamp", JVal.str now)]) := by
  have hc : ¬ (pyFind text.data '{' = -1 ∨ pyRfind text.data '}' + 1 = 0) := by
    rintro (h | h)
    · exact hjs h
    · rcases pyRfind_cases text.data '}' with h' | ⟨n, h'⟩
      · exact hje h'
      · rw [h'] at h; omega
  simp only [analyze_blood_report]
  rw [if_neg hc]

theorem analyze_text_success (loads : String → Option Dict) (now text : String)
    (obj : Dict)
    (hjs : pyFind text.data '{' ≠ -1) (hje : pyRfind text.data '}' ≠ -1)
    (hp : loads (braceSlice text) = some obj) :
    analyze_blood_report loads now (.text text) =
      (if dictHas (dictSet obj "analysis_timestamp" (JVal.str now)) "disclaimer" then
         dictSet obj "analysis_timestamp" (JVal.str now)
       else
         dictSet (dictSet obj "analysis_timestamp" (JVal.str now)) "disclaimer"
           (JVal.arr (defaultDisclaimer.map JVal.str))) := by
  rw [analyze_text_rest loads now text hjs hje, hp]

theorem analyze_text_badjson (loads : String → Option Dict) (now text : String)
    (hjs : pyFind text.data '{' ≠ -1) (hje : pyRfind text.data '}' ≠ -1)
    (hp : loads (braceSlice text) = none) :
    analyze_blood_report loads now (.text text) =
      [("error", JVal.str "Could not parse JSON response"),
       ("raw_response", JVal.str (strTake (braceSlice text) 500)),
       ("timestamp", JVal.str now)] := by
  rw [analyze_text_rest loads now text hjs hje, hp]

/-- C1 (counterexample): the claim says a Model Client failure makes
`process_image` return a string beginning with "Error: " and no
record/document.  On the code, a model exception (here "quota exceeded")
is caught inside `analyze_blood_report`, `process_image` proceeds, and it
returns an empty display string, the error record, and a rendered
document — so the claim is false at this input. -/
theorem C1_counterexample :
    process_image loadsFix "T" "R" (.upload (.exn "quota exceeded")) =
      ⟨"", some [("error", JVal.str "quota exceeded"), ("timestamp", JVal.str "T")],
       some [PdfOp.cell "Generated on: R" black]⟩ ∧
    pyStartsWith "" "Error: " = false :=
  ⟨rfl, rfl⟩

/-- C1 (amended): for every upload on which the model call raises, the
exception is swallowed inside `analyze_blood_report` (never reaching the
orchestrator as an exception); `process_image` returns the empty display
string (not one beginning with "Error: "), together with the
error-variant record and a rendered document containing only the
generation line. -/
theorem C1_model_failure_swallowed (loads : String → Option Dict)
    (now rnow msg : String) :
    process_image loads now rnow (.upload (.exn msg)) =
      ⟨"", some [("error", JVal.str msg), ("timestamp", JVal.str now)],
       some [PdfOp.cell ("Generated on: " ++ rnow) black]⟩ :=
  rfl

/-- C2 (counterexample): the claim says the Renderer is never invoked on
an error-variant record.  On input text "hello" the Normalizer produces
the error variant, yet `process_image` still calls `generate_pdf` on it
and returns the resulting document handle. -/
theorem C2_counterexample :
    (process_image loadsFix "T" "R" (.upload (.text "hello"))).record =
      some [("error", JVal.str "Could not parse the blood report"),
            ("raw_response", JVal.str "hello"),
            ("timestamp", JVal.str "T")] ∧
    (process_image loadsFix "T" "R" (.upload (.text "hello"))).document =
      some [PdfOp.cell "Generated on: R" black] :=
  ⟨rfl, rfl⟩

/-- C2 (amended): for every way the Normalizer produces an error-variant
record — the model call raising, a reply with no brace pair, or a brace
slice that `json.loads` rejects — the presentation layer still invokes
the Document Renderer on that record: the error record (whose `error`
field the first conjunct exhibits) renders to a document holding only
the generation line, and `process_image` returns that document together
with the error record and an empty display string. -/
theorem C2_error_variant_still_rendered (loads : String → Option Dict)
    (now rnow : String) (reply : ModelReply)
    (h : (∃ msg, reply = .exn msg) ∨
         (∃ text, reply = .text text ∧
           ((pyFind text.data '{' = -1 ∨ pyRfind text.data '}' = -1) ∨
            (pyFind text.data '{' ≠ -1 ∧ pyRfind text.data '}' ≠ -1 ∧
             loads (braceSlice text) = none)))) :
    (∃ e, dictGet (analyze_blood_report loads now reply) "error" =
      some (JVal.str e)) ∧
    process_image loads now rnow (.upload reply) =
      ⟨"", some (analyze_blood_report loads now reply),
       some [PdfOp.cell ("Generated on: " ++ rnow) black]⟩ := by
  rcases h with ⟨msg, rfl⟩ | ⟨text, rfl, herr⟩
  · exact ⟨⟨msg, rfl⟩, rfl⟩
  · rcases herr with h1 | ⟨hjs, hje, hp⟩
    · have ha := analyze_text_branch1 loads now text h1
      refine ⟨⟨"Could not parse the blood report", ?_⟩, ?_⟩
      · rw [ha]
        rfl
      · simp only [process_image, ha]
        rfl
    · have ha := analyze_text_badjson loads now text hjs hje hp
      refine ⟨⟨"Could not parse JSON response", ?_⟩, ?_⟩
      · rw [ha]
        rfl
      · simp only [process_image, ha]
        rfl

/-- C2 (witness for the amended theorem): exercised at a model
exception, at a brace-free reply, and at a reply whose brace slice fails
to parse. -/
theorem C2_error_variant_still_rendered_witness :
    ((∃ e, dictGet (analyze_blood_report loadsFix "T" (.exn "boom")) "error" =
        some (JVal.str e)) ∧
      process_image loadsFix "T" "R" (.upload (.exn "boom")) =
        ⟨"", some (analyze_blood_report loadsFix "T" (.exn "boom")),
         some [PdfOp.cell ("Generated on: " ++ "R") black]⟩) ∧
    ((∃ e, dictGet (analyze_blood_report loadsFix "T" (.text "oops")) "error" =
        some (JVal.str e)) ∧
      process_image loadsFix "T" "R" (.upload (.text "oops")) =
        ⟨"", some (analyze_blood_report loadsFix "T" (.text "oops")),
         some [PdfOp.cell ("Generated on: " ++ "R") black]⟩) ∧
    ((∃ e, dictGet (analyze_blood_report loadsFix "T" (.text "xx\x7bbad\x7dyy"))
        "error" = some (JVal.str e)) ∧
      process_image loadsFix "T" "R" (.upload (.text "xx\x7bbad\x7dyy")) =
        ⟨"", some (analyze_blood_report loadsFix "T" (.text "xx\x7bbad\x7dyy")),
         some [PdfOp.cell ("Generated on: " ++ "R") black]⟩) :=
  ⟨C2_error_variant_still_rendered loadsFix "T" "R" (.exn "boom")
     (Or.inl ⟨"boom", rfl⟩),
   C2_error_variant_still_rendered loadsFix "T" "R" (.text "oops")
     (Or.inr ⟨"oops", rfl, Or.inl (Or.inl (by decide))⟩),
   C2_error_variant_still_rendered loadsFix "T" "R" (.text "xx\x7bbad\x7dyy")
     (Or.inr ⟨"xx\x7bbad\x7dyy", rfl, Or.inr ⟨by decide, by decide, rfl⟩⟩)⟩

/-- C8 (counterexample): the claim says a filename not suggesting PNG
(".bmp" or no extension) is tagged "image/jpeg".  The code's default is
the other way round: both are tagged "image/png". -/
theorem C8_counterexample :
    image_format "scan.bmp" [] = [⟨"image/png", []⟩] ∧
    image_format "report" [] = [⟨"image/png", []⟩] ∧
    "image/png" ≠ "image/jpeg" :=
  ⟨rfl, rfl, by decide⟩

/-- C8 (amended): the outbound payload is a single part carrying the
image bytes; its MIME tag is "image/jpeg" exactly when the lowercased
path ends in ".jpg" or ".jpeg", and "image/png" otherwise (so ".bmp" or
an extension-less name is tagged "image/png"). -/
theorem C8_mime_png_default (p : String) (bytes : List Nat) :
    (∀ part ∈ image_format p bytes,
      part.mime_type = "image/jpeg" ∨ part.mime_type = "image/png") ∧
    ((pyEndsWith (pyLower p) ".jpg" || pyEndsWith (pyLower p) ".jpeg") = false →
      (image_format p bytes).map ImagePart.mime_type = ["image/png"]) ∧
    ((pyEndsWith (pyLower p) ".jpg" || pyEndsWith (pyLower p) ".jpeg") = true →
      (image_format p bytes).map ImagePart.mime_type = ["image/jpeg"]) ∧
    (image_format p bytes).map ImagePart.data = [bytes] := by
  unfold image_format
  by_cases h : (pyEndsWith (pyLower p) ".jpg" || pyEndsWith (pyLower p) ".jpeg") = true <;>
    simp [h]

/-- C8 (witness for the amended theorem): an uppercase ".JPG" path is
tagged "image/jpeg", and a ".bmp" path "image/png". -/
theorem C8_mime_png_default_witness :
    (image_format "a.JPG" [7]).map ImagePart.mime_type = ["image/jpeg"] ∧
    (image_format "scan2.bmp" [7]).map ImagePart.mime_type = ["image/png"] :=
  ⟨(C8_mime_png_default "a.JPG" [7]).2.2.1 (by decide),
   (C8_mime_png_default "scan2.bmp" [7]).2.1 (by decide)⟩

/-- C9: `analyze_blood_report` is total (its embedding returns a record
for every reply, mirroring the outer try/except of lines 79-125), and in
the generic-exception branch the returned record holds exactly an
`error` field (the exception's message) and a `timestamp` — no
`raw_response`. -/
theorem C9_exception_record (loads : String → Option Dict) (now msg : String) :
    analyze_blood_report loads now (.exn msg) =
      [("error", JVal.str msg), ("timestamp", JVal.str now)] ∧
    dictGet (analyze_blood_report loads now (.exn msg)) "raw_response" = none ∧
    dictGet (analyze_blood_report loads now (.exn msg)) "error" = some (JVal.str msg) ∧
    dictGet (analyze_blood_report loads now (.exn msg)) "timestamp" = some (JVal.str now) :=
  ⟨rfl, rfl, rfl, rfl⟩

/-- C3: when the reply has a brace pair and the slice from the first
brace to the last parses as the object `obj`, the Normalizer returns the
success variant: all keys other than `analysis_timestamp` and
`disclaimer` keep exactly `obj`'s values, `analysis_timestamp` is the
fresh timestamp, `disclaimer` is `obj`'s own when the key is present and
the fixed six-item boilerplate otherwise, and no other key appears. -/
theorem C3_success_fields (loads : String → Option Dict) (now text : String)
    (obj : Dict)
    (hjs : pyFind text.data '{' ≠ -1) (hje : pyRfind text.data '}' ≠ -1)
    (hp : loads (braceSlice text) = some obj) :
    (∀ k, k ≠ "analysis_timestamp" → k ≠ "disclaimer" →
      dictGet (analyze_blood_report loads now (.text text)) k = dictGet obj k) ∧
    dictGet (analyze_blood_report loads now (.text text)) "analysis_timestamp" =
      some (JVal.str now) ∧
    (dictHas obj "disclaimer" = true →
      dictGet (analyze_blood_report loads now (.text text)) "disclaimer" =
        dictGet obj "disclaimer") ∧
    (dictHas obj "disclaimer" = false →
      dictGet (analyze_blood_report loads now (.text text)) "disclaimer" =
        some (JVal.arr (defaultDisclaimer.map JVal.str))) ∧
    (∀ k, dictHas (analyze_blood_report loads now (.text text)) k = true →
      dictHas obj k = true ∨ k = "analysis_timestamp" ∨ k = "disclaimer") := by
  rw [analyze_text_success loads now text obj hjs hje hp]
  have hdisc_r1 :
      dictHas (dictSet obj "analysis_timestamp" (JVal.str now)) "disclaimer" =
        dictHas obj "disclaimer" :=
    dictHas_dictSet_ne obj "analysis_timestamp" (JVal.str now) "disclaimer" (by decide)
  by_cases hd : dictHas obj "disclaimer" = true
  · rw [if_pos (by rw [hdisc_r1]; exact hd)]
    refine ⟨?_, ?_, ?_, ?_, ?_⟩
    · intro k hk1 _
      exact dictGet_dictSet_ne obj "analysis_timestamp" (JVal.str now) k hk1
    · exact dictGet_dictSet_self obj "analysis_timestamp" (JVal.str now)
    · intro _
      exact dictGet_dictSet_ne obj "analysis_timestamp" (JVal.str now) "disclaimer" (by decide)
    · intro hf
      rw [hd] at hf
      cases hf
    · intro k hk
      by_cases hk1 : k = "analysis_timestamp"
      · exact Or.inr (Or.inl hk1)
      · left
        rw [← dictHas_dictSet_ne obj "analysis_timestamp" (JVal.str now) k hk1]
        exact hk
  · have hd' : dictHas obj "disclaimer" = false := by
      cases hb : dictHas obj "disclaimer"
      · rfl
      · exact absurd hb hd
    rw [if_neg (by rw [hdisc_r1, hd']; exact Bool.false_ne_true)]
    refine ⟨?_, ?_, ?_, ?_, ?_⟩
    · intro k hk1 hk2
      rw [dictGet_dictSet_ne _ "disclaimer" _ k hk2]
      exact dictGet_dictSet_ne obj "analysis_timestamp" (JVal.str now) k hk1
    · rw [dictGet_dictSet_ne _ "disclaimer" _ "analysis_timestamp" (by decide)]
      exact dictGet_dictSet_self obj "analysis_timestamp" (JVal.str now)
    · intro hf
      rw [hd'] at hf
      cases hf
    · intro _
      exact dictGet_dictSet_self _ "disclaimer" _
    · intro k hk
      by_cases hk2 : k = "disclaimer"
      · exact Or.inr (Or.inr hk2)
      · rw [dictHas_dictSet_ne _ "disclaimer" _ k hk2] at hk
        by_cases hk1 : k = "analysis_timestamp"
        · exact Or.inr (Or.inl hk1)
        · left
          rw [← dictHas_dictSet_ne obj "analysis_timestamp" (JVal.str now) k hk1]
          exact hk

/-- C3 (witness) at the reply text containing the object with one field
"a". -/
theorem C3_success_fields_witness :
    dictGet (analyze_blood_report loadsFix "T" (.text "\x7b\"a\": 1\x7d"))
        "analysis_timestamp" = some (JVal.str "T") ∧
    dictGet (analyze_blood_report loadsFix "T" (.text "\x7b\"a\": 1\x7d")) "a" =
      dictGet [("a", JVal.num 1)] "a" :=
  ⟨(C3_success_fields loadsFix "T" "\x7b\"a\": 1\x7d" [("a", JVal.num 1)]
      (by decide) (by decide) rfl).2.1,
   (C3_success_fields loadsFix "T" "\x7b\"a\": 1\x7d" [("a", JVal.num 1)]
      (by decide) (by decide) rfl).1 "a" (by decide) (by decide)⟩

/-- C4 (counterexample): the claim says every successfully normalized
record carries a non-empty disclaimer, including when the upstream reply
supplies an empty `disclaimer` list.  When the parsed object is
`\x7b"disclaimer": []\x7d`, the code keeps the empty list (it only tests key
presence), so the success record's disclaimer is empty. -/
theorem C4_counterexample :
    analyze_blood_report loadsFix "T" (.text "\x7b\"disclaimer\": []\x7d") =
      [("disclaimer", JVal.arr []), ("analysis_timestamp", JVal.str "T")] ∧
    dictGet (analyze_blood_report loadsFix "T" (.text "\x7b\"disclaimer\": []\x7d"))
        "disclaimer" = some (JVal.arr []) :=
  ⟨rfl, rfl⟩

/-- C4 (amended): every successfully normalized record carries an
`analysis_timestamp` and a `disclaimer` key; when the upstream object
lacks the `disclaimer` key the inserted disclaimer is the six-item
(hence non-empty) boilerplate, but an upstream-supplied `disclaimer`
value — including an empty list — is kept unchanged. -/
theorem C4_disclaimer_presence (loads : String → Option Dict) (now text : String)
    (obj : Dict)
    (hjs : pyFind text.data '{' ≠ -1) (hje : pyRfind text.data '}' ≠ -1)
    (hp : loads (braceSlice text) = some obj) :
    dictGet (analyze_blood_report loads now (.text text)) "analysis_timestamp" =
      some (JVal.str now) ∧
    dictHas (analyze_blood_report loads now (.text text)) "disclaimer" = true ∧
    (dictHas obj "disclaimer" = false →
      dictGet (analyze_blood_report loads now (.text text)) "disclaimer" =
        some (JVal.arr (defaultDisclaimer.map JVal.str)) ∧
      (defaultDisclaimer.map JVal.str).length = 6) ∧
    (∀ v, dictGet obj "disclaimer" = some v →
      dictGet (analyze_blood_report loads now (.text text)) "disclaimer" = some v) := by
  rw [analyze_text_success loads now text obj hjs hje hp]
  have hdisc_r1 :
      dictHas (dictSet obj "analysis_timestamp" (JVal.str now)) "disclaimer" =
        dictHas obj "disclaimer" :=
    dictHas_dictSet_ne obj "analysis_timestamp" (JVal.str now) "disclaimer" (by decide)
  by_cases hd : dictHas obj "disclaimer" = true
  · rw [if_pos (by rw [hdisc_r1]; exact hd)]
    refine ⟨?_, ?_, ?_, ?_⟩
    · exact dictGet_dictSet_self obj "analysis_timestamp" (JVal.str now)
    · rw [hdisc_r1]; exact hd
    · intro hf; rw [hd] at hf; cases hf
    · intro v hv
      rw [dictGet_dictSet_ne obj "analysis_timestamp" (JVal.str now) "disclaimer" (by decide)]
      exact hv
  · have hd' : dictHas obj "disclaimer" = false := by
      cases hb : dictHas obj "disclaimer"
      · rfl
      · exact absurd hb hd
    rw [if_neg (by rw [hdisc_r1, hd']; exact Bool.false_ne_true)]
    refine ⟨?_, ?_, ?_, ?_⟩
    · rw [dictGet_dictSet_ne _ "disclaimer" _ "analysis_timestamp" (by decide)]
      exact dictGet_dictSet_self obj "analysis_timestamp" (JVal.str now)
    · exact dictHas_dictSet_self _ "disclaimer" _
    · intro _
      exact ⟨dictGet_dictSet_self _ "disclaimer" _, by decide⟩
    · intro v hv
      have : dictHas obj "disclaimer" = true := by simp [dictHas, hv]
      rw [this] at hd'
      cases hd'

/-- C4 (witness for the amended theorem): a parsed object with no
disclaimer key receives the boilerplate. -/
theorem C4_disclaimer_presence_witness :
    dictHas (analyze_blood_report loadsFix "T" (.text "\x7b\"a\": 1\x7d"))
        "disclaimer" = true ∧
    dictGet (analyze_blood_report loadsFix "T" (.text "\x7b\"a\": 1\x7d"))
        "disclaimer" = some (JVal.arr (defaultDisclaimer.map JVal.str)) :=
  ⟨(C4_disclaimer_presence loadsFix "T" "\x7b\"a\": 1\x7d" [("a", JVal.num 1)]
      (by decide) (by decide) rfl).2.1,
   ((C4_disclaimer_presence loadsFix "T" "\x7b\"a\": 1\x7d" [("a", JVal.num 1)]
      (by decide) (by decide) rfl).2.2.1 rfl).1⟩

/-- C5: for a reply with no `\x7b`, or with no `\x7d` after the first `\x7b`
(the code's indices: either `find` is `-1`, or `rfind` is before `find`),
the Normalizer returns the error variant, whose `raw_response` is at most
500 characters and a contiguous excerpt of the original reply.  The
hypothesis `loads "" = none` records that `json.loads` rejects the empty
string (which is the slice when the last `\x7d` precedes the first `\x7b`). -/
theorem C5_no_brace_error (loads : String → Option Dict) (now text : String)
    (hempty : loads "" = none)
    (h : pyFind text.data '{' = -1 ∨
         pyRfind text.data '}' < pyFind text.data '{') :
    (∃ e, dictGet (analyze_blood_report loads now (.text text)) "error" =
      some (JVal.str e)) ∧
    (∃ s, dictGet (analyze_blood_report loads now (.text text)) "raw_response" =
        some (JVal.str s) ∧
      s.data.length ≤ 500 ∧ s.data <:+: text.data) := by
  rcases h with hf | hlt
  · rw [analyze_text_branch1 loads now text (Or.inl hf)]
    refine ⟨⟨_, rfl⟩, ⟨strTake text 500, rfl, ?_, ?_⟩⟩
    · show (text.data.take 500).length ≤ 500
      rw [List.length_take]
      omega
    · exact (List.take_prefix 500 text.data).isInfix
  · rcases pyRfind_cases text.data '}' with hrf | ⟨j, hrf⟩
    · rw [analyze_text_branch1 loads now text (Or.inr hrf)]
      refine ⟨⟨_, rfl⟩, ⟨strTake text 500, rfl, ?_, ?_⟩⟩
      · show (text.data.take 500).length ≤ 500
        rw [List.length_take]
        omega
      · exact (List.take_prefix 500 text.data).isInfix
    · obtain ⟨i, hfi⟩ : ∃ i : Nat, pyFind text.data '{' = (i : Int) := by
        rcases pyFind_cases text.data '{' with hf0 | hf0
        · rw [hf0, hrf] at hlt; omega
        · exact hf0
      have hij : j + 1 ≤ i := by
        rw [hrf, hfi] at hlt
        omega
      have hslice : braceSlice text = "" := by
        unfold braceSlice
        rw [hfi, hrf]
        have h1 : ((i : Int)).toNat = i := by omega
        have h2 : ((j : Int) + 1).toNat = j + 1 := by omega
        rw [h1, h2]
        exact strSlice_of_le text i (j + 1) hij
      have hjs : pyFind text.data '{' ≠ -1 := by rw [hfi]; omega
      have hje : pyRfind text.data '}' ≠ -1 := by rw [hrf]; omega
      rw [analyze_text_badjson loads now text hjs hje (by rw [hslice]; exact hempty)]
      refine ⟨⟨_, rfl⟩, ⟨strTake (braceSlice text) 500, rfl, ?_, ?_⟩⟩
      · rw [hslice]
        show ((("" : String)).data.take 500).length ≤ 500
        decide
      · rw [hslice]
        show ((("" : String)).data.take 500) <:+: text.data
        exact List.nil_infix

/-- C5 (witness) at the brace-free reply "no braces here". -/
theorem C5_no_brace_error_witness :
    (∃ e, dictGet (analyze_blood_report loadsFix "T" (.text "no braces here"))
      "error" = some (JVal.str e)) ∧
    (∃ s, dictGet (analyze_blood_report loadsFix "T" (.text "no braces here"))
        "raw_response" = some (JVal.str s) ∧
      s.data.length ≤ 500 ∧ s.data <:+: ("no braces here" : String).data) :=
  C5_no_brace_error loadsFix "T" "no braces here" rfl (Or.inl (by decide))

/-- C6: when the reply has a brace pair but the slice from the first
`\x7b` through the last `\x7d` is not valid JSON, the Normalizer returns the
error variant whose `raw_response` is exactly that slice truncated to at
most 500 characters (not the full original reply). -/
theorem C6_bad_slice_error (loads : String → Option Dict) (now text : String)
    (hjs : pyFind text.data '{' ≠ -1) (hje : pyRfind text.data '}' ≠ -1)
    (hp : loads (braceSlice text) = none) :
    analyze_blood_report loads now (.text text) =
      [("error", JVal.str "Could not parse JSON response"),
       ("raw_response", JVal.str (strTake (braceSlice text) 500)),
       ("timestamp", JVal.str now)] ∧
    (strTake (braceSlice text) 500).data.length ≤ 500 := by
  refine ⟨analyze_text_badjson loads now text hjs hje hp, ?_⟩
  show ((braceSlice text).data.take 500).length ≤ 500
  rw [List.length_take]
  omega

/-- C6 (witness) at the reply whose brace slice "\x7bnope\x7d" fails to
parse. -/
theorem C6_bad_slice_error_witness :
    analyze_blood_report loadsFix "T" (.text "xx\x7bnope\x7dyy") =
      [("error", JVal.str "Could not parse JSON response"),
       ("raw_response", JVal.str (strTake (braceSlice "xx\x7bnope\x7dyy") 500)),
       ("timestamp", JVal.str "T")] :=
  (C6_bad_slice_error loadsFix "T" "xx\x7bnope\x7dyy" (by decide) (by decide) rfl).1

theorem statusLower_of_ok (d : Dict) (s : String)
    (h : paramStatus d = .ok s) : statusLower d = s := by
  unfold paramStatus at h
  unfold statusLower
  cases hg : dictGet d "status" with
  | none =>
    rw [hg] at h
    injection h
  | some v =>
    rw [hg] at h
    cases v with
    | str t => injection h
    | null => cases h
    | bool b => cases h
    | num n => cases h
    | arr l => cases h
    | obj o => cases h

theorem dictGet_mem (d : Dict) (k : String) (v : JVal)
    (h : dictGet d k = some v) : (k, v) ∈ d := by
  induction d with
  | nil => cases h
  | cons p t ih =>
    obtain ⟨a, b⟩ := p
    by_cases hak : a = k
    · subst hak
      simp [dictGet] at h
      simp [h]
    · simp [dictGet, hak] at h
      exact List.mem_cons_of_mem _ (ih h)

theorem strDict_get (d : Dict) (h : StrDict d) (k : String) (v : JVal)
    (hg : dictGet d k = some v) : ∃ s, v = JVal.str s := by
  have hv := h _ (dictGet_mem d k v hg)
  cases v with
  | str s => exact ⟨s, rfl⟩
  | null => cases hv
  | bool b => cases hv
  | num n => cases hv
  | arr l => cases hv
  | obj o => cases hv

theorem paramValue_ok_of (d : Dict) (h : StrDict d) :
    ∃ t, paramValue d = .ok t := by
  cases hg : dictGet d "value" with
  | none => exact ⟨"N/A", by simp [paramValue, hg]⟩
  | some v =>
    obtain ⟨s, rfl⟩ := strDict_get d h _ v hg
    exact ⟨s, by simp [paramValue, hg]⟩

theorem paramRange_ok_of (d : Dict) (h : StrDict d) :
    ∃ t, paramRange d = .ok t := by
  cases hg : dictGet d "reference_range" with
  | none => exact ⟨"N/A", by simp [paramRange, hg]⟩
  | some v =>
    obtain ⟨s, rfl⟩ := strDict_get d h _ v hg
    exact ⟨s, by simp [paramRange, hg]⟩

theorem paramStatus_ok_of (d : Dict) (h : StrDict d) :
    ∃ t, paramStatus d = .ok t := by
  cases hg : dictGet d "status" with
  | none => exact ⟨"", by simp [paramStatus, hg]⟩
  | some v =>
    obtain ⟨s, rfl⟩ := strDict_get d h _ v hg
    exact ⟨pyLower s, by simp [paramStatus, hg]⟩

theorem renderRow_keyError (d : Dict)
    (hm : dictGet d "parameter" = none) :
    renderRow (.obj d) = .error "\x27parameter\x27" := by
  simp [renderRow, paramName, hm]

theorem renderRow_ok_of (d : Dict) (h : StrDict d)
    (hm : dictGet d "parameter" ≠ none) :
    ∃ ops, renderRow (.obj d) = .ok ops := by
  obtain ⟨v, hv⟩ : ∃ v, dictGet d "parameter" = some v := by
    cases hg : dictGet d "parameter" with
    | none => exact absurd hg hm
    | some v => exact ⟨v, rfl⟩
  obtain ⟨s, rfl⟩ := strDict_get d h _ v hv
  obtain ⟨tv, htv⟩ := paramValue_ok_of d h
  obtain ⟨tr, htr⟩ := paramRange_ok_of d h
  obtain ⟨ts, hts⟩ := paramStatus_ok_of d h
  refine ⟨[PdfOp.cell (if s.data.length > 30 then strTake s 30 ++ "..." else s) black,
           PdfOp.cell tv black, PdfOp.cell tr black] ++
          (if ts = "abnormal" then [PdfOp.cell "ABNORMAL" red]
           else [PdfOp.cell "NORMAL" green]), ?_⟩
  simp [renderRow, paramName, hv, htv, htr, hts]

theorem renderRows_keyError (entries : List Dict)
    (hs : ∀ d ∈ entries, StrDict d)
    (hmiss : ∃ d ∈ entries, dictGet d "parameter" = none) :
    renderRows (entries.map JVal.obj) = .error "\x27parameter\x27" := by
  induction entries with
  | nil =>
    obtain ⟨d, hd, _⟩ := hmiss
    cases hd
  | cons d rest ih =>
    by_cases hm : dictGet d "parameter" = none
    · simp [renderRows, renderRow_keyError d hm]
    · obtain ⟨ops, hops⟩ := renderRow_ok_of d (hs d (by simp)) hm
      have hmiss' : ∃ d' ∈ rest, dictGet d' "parameter" = none := by
        obtain ⟨d', hd', hnone⟩ := hmiss
        rcases List.mem_cons.mp hd' with rfl | hmem
        · exact absurd hnone hm
        · exact ⟨d', hmem, hnone⟩
      have hrest := ih (fun d' hd' => hs d' (List.mem_cons_of_mem _ hd')) hmiss'
      simp [renderRows, hops, hrest]

theorem generate_pdf_blood_only (w : JVal) (rnow e : String)
    (hw : add_blood_parameters w = .error e) :
    generate_pdf [("blood_parameters", w)] rnow = .error e := by
  have hsteps : generate_pdf [("blood_parameters", w)] rnow =
      (add_blood_parameters w).bind (fun bOps =>
        .ok (PdfOp.cell ("Generated on: " ++ rnow) black :: (bOps ++ [] ++ []))) := rfl
  rw [hsteps, hw]
  rfl

/-- C7: a rendered parameter-table row's status cell is "ABNORMAL" drawn
in red exactly when the entry's status — lowercased, i.e. compared
case-insensitively — equals "abnormal"; for every other status
(including an absent key, whose lowered form is "") the cell is "NORMAL"
drawn in green. -/
theorem C7_status_cell (d : Dict) (ops : List PdfOp)
    (h : renderRow (.obj d) = .ok ops) :
    (statusLower d = "abnormal" →
      ops.getLast? = some (PdfOp.cell "ABNORMAL" red)) ∧
    (statusLower d ≠ "abnormal" →
      ops.getLast? = some (PdfOp.cell "NORMAL" green)) := by
  cases hn : paramName d with
  | error e => simp [renderRow, hn] at h
  | ok pname =>
    cases hv : paramValue d with
    | error e => simp [renderRow, hn, hv] at h
    | ok value =>
      cases hr : paramRange d with
      | error e => simp [renderRow, hn, hv, hr] at h
      | ok range =>
        cases hs : paramStatus d with
        | error e => simp [renderRow, hn, hv, hr, hs] at h
        | ok st =>
          have hsl : statusLower d = st := statusLower_of_ok d st hs
          simp only [renderRow, hn, hv, hr, hs] at h
          injection h with h
          rw [← h, hsl]
          constructor
          · intro hab
            rw [if_pos hab]
            exact List.getLast?_concat _
          · intro hab
            rw [if_neg hab]
            exact List.getLast?_concat _

/-- C7 (witness): a row whose status is "Abnormal" (mixed case) renders
the red ABNORMAL cell. -/
theorem C7_status_cell_witness :
    statusLower [("parameter", JVal.str "Hemoglobin"), ("status", JVal.str "Abnormal")] =
      "abnormal" ∧
    [PdfOp.cell "Hemoglobin" black, PdfOp.cell "N/A" black, PdfOp.cell "N/A" black,
     PdfOp.cell "ABNORMAL" red].getLast? = some (PdfOp.cell "ABNORMAL" red) :=
  ⟨rfl,
   (C7_status_cell [("parameter", JVal.str "Hemoglobin"), ("status", JVal.str "Abnormal")]
      [PdfOp.cell "Hemoglobin" black, PdfOp.cell "N/A" black, PdfOp.cell "N/A" black,
       PdfOp.cell "ABNORMAL" red] rfl).1 rfl⟩

/-- C10: over entries whose present values are strings, the renderer
raises `KeyError('parameter')` — surfacing as the message `'parameter'`
— whenever some entry lacks the "parameter" key (both at
`add_blood_parameters` and through `generate_pdf`), while an entry that
has its parameter but no "value", "reference_range" or "status" key is
tolerated and rendered as "N/A", "N/A" and a green "NORMAL". -/
theorem C10_parameter_key (entries : List Dict) (rnow : String)
    (hs : ∀ d ∈ entries, StrDict d) :
    ((∃ d ∈ entries, dictGet d "parameter" = none) →
      add_blood_parameters (JVal.arr (entries.map JVal.obj)) =
        .error "\x27parameter\x27" ∧
      generate_pdf [("blood_parameters", JVal.arr (entries.map JVal.obj))] rnow =
        .error "\x27parameter\x27") ∧
    (∀ (d : Dict) (pn : String), dictGet d "parameter" = some (JVal.str pn) →
      pn.data.length ≤ 30 →
      dictGet d "value" = none → dictGet d "reference_range" = none →
      dictGet d "status" = none →
      renderRow (JVal.obj d) =
        .ok [PdfOp.cell pn black, PdfOp.cell "N/A" black, PdfOp.cell "N/A" black,
             PdfOp.cell "NORMAL" green]) := by
  constructor
  · intro hmiss
    have hrr := renderRows_keyError entries hs hmiss
    have hblood : add_blood_parameters (JVal.arr (entries.map JVal.obj)) =
        .error "\x27parameter\x27" := by
      simp [add_blood_parameters, hrr]
    exact ⟨hblood, generate_pdf_blood_only _ rnow _ hblood⟩
  · intro d pn hpn h30 hv hr hs0
    have hname : paramName d = .ok pn := by
      unfold paramName
      rw [hpn]
      show Except.ok (if pn.data.length > 30 then strTake pn 30 ++ "..." else pn) =
        Except.ok pn
      rw [if_neg (by omega)]
    have hvalue : paramValue d = .ok "N/A" := by
      unfold paramValue
      rw [hv]
    have hrange : paramRange d = .ok "N/A" := by
      unfold paramRange
      rw [hr]
    have hstatus : paramStatus d = .ok "" := by
      unfold paramStatus
      rw [hs0]
    simp only [renderRow, hname, hvalue, hrange, hstatus]
    rw [if_neg (by decide)]
    rfl

/-- C10 (witness): of two entries, the second lacks "parameter" and the
whole table render raises; the first, lacking value/range/status,
renders as N/A, N/A, NORMAL. -/
theorem C10_parameter_key_witness :
    add_blood_parameters (JVal.arr ([[("parameter", JVal.str "Hb")], []].map JVal.obj)) =
      .error "\x27parameter\x27" ∧
    renderRow (JVal.obj [("parameter", JVal.str "Hb")]) =
      .ok [PdfOp.cell "Hb" black, PdfOp.cell "N/A" black, PdfOp.cell "N/A" black,
           PdfOp.cell "NORMAL" green] :=
  ⟨((C10_parameter_key [[("parameter", JVal.str "Hb")], []] "R"
      (by
        intro d hd p hp
        rcases List.mem_cons.mp hd with rfl | hd'
        · rcases List.mem_singleton.mp hp with rfl
          rfl
        · rcases List.mem_singleton.mp hd' with rfl
          cases hp)).1 ⟨[], by simp, rfl⟩).1,
   (C10_parameter_key [[("parameter", JVal.str "Hb")], []] "R"
      (by
        intro d hd p hp
        rcases List.mem_cons.mp hd with rfl | hd'
        · rcases List.mem_singleton.mp hp with rfl
          rfl
        · rcases List.mem_singleton.mp hd' with rfl
          cases hp)).2
     [("parameter", JVal.str "Hb")] "Hb" rfl (by decide) rfl rfl rfl⟩

